import Mathlib

/-
Verification of the `pot` dotfile manager (pot.py) against its
natural-language specification.

The development shallowly embeds the parts of pot.py that the claims
touch:

* the `include` placement action (pot.py lines 269-281): file content is
  a list of characters, the MULTILINE regex search for the inclusion
  line is embedded as an executable search over line starts;
* the destination-state classification predicates (pot.py lines 74-91:
  `real_dir`, `real_file`, `broken_link`, `same_file_symlink`) over an
  abstract destination state recording what `lstat`/`stat` observe;
* the removal phase of `install` (pot.py lines 251-262) and the
  per-entry dispatch (pot.py lines 238-281);
* the manifest model `DotFile`/`Config` and its serialization round
  trip (pot.py lines 130-198);
* the scoped change-directory helper `cd` (pot.py lines 106-115) as a
  state-and-exception monad with an explicit try/finally combinator;
* the top-level exit-status behaviour (pot.py lines 229-232, 329-333).
-/

set_option maxHeartbeats 1000000

deriving instance DecidableEq for Except

namespace Pot

abbrev Chars := List Char

/-! ## The `include` action text search (pot.py lines 269-281)

The source builds `inclusion_line = '. {src}'.format(src=src)`, escapes
it, and searches the whole file content with the MULTILINE regex
`^\s*LINE\s*$`.  We embed the regex directly: a match exists iff at the
start of the content or just after some newline, a run of whitespace is
followed by the literal line and then only whitespace up to the next
line boundary. -/

/-- The regex character class `\s` (whitespace). -/
def wsChar (c : Char) : Bool := c.isWhitespace

/-- `wsOnlyToEOL l` holds when every character of `l` strictly before its
first newline is whitespace: the regex tail `\s*$` in MULTILINE mode,
where `$` matches before a newline or at the end of the input. -/
def wsOnlyToEOL : Chars → Bool
  | [] => true
  | c :: rest => if c = '\n' then true else wsChar c && wsOnlyToEOL rest

/-- Boolean test that the first list starts the second. -/
def leadsWith : Chars → Chars → Bool
  | [], _ => true
  | _ :: _, [] => false
  | a :: as, b :: bs => a = b && leadsWith as bs

/-- `matchAt X l`: the regex `\s*X\s*$` matches at the current position
(`\s*` may consume any whitespace, then the literal `X`, then whitespace
up to a line boundary). -/
def matchAt (X : Chars) : Chars → Bool
  | [] => X.isEmpty
  | c :: rest =>
      (leadsWith X (c :: rest) && wsOnlyToEOL ((c :: rest).drop X.length)) ||
      (wsChar c && matchAt X rest)

/-- Try `matchAt` immediately after every newline of the content. -/
def searchAux (X : Chars) : Chars → Bool
  | [] => false
  | c :: rest => (if c = '\n' then matchAt X rest else false) || searchAux X rest

/-- `re.search` of the MULTILINE pattern `^\s*X\s*$`: `^` matches at the
start of the content and after each newline. -/
def searchMultiline (X content : Chars) : Bool :=
  matchAt X content || searchAux X content

/-- `DEFAULT_INCLUSION_FORMAT = '. {src}'` (pot.py line 43) instantiated
at the absolute source path. -/
def inclusionLine (src : Chars) : Chars := '.' :: ' ' :: src

/-! ## Destination filesystem state (pot.py lines 74-91)

`DstState` records what the predicate library can observe about the
object currently sitting at the destination path: nothing, a regular
file (with inode identity and text content), a directory, or a symbolic
link whose resolved target is either missing (broken) or a file or a
directory with some inode identity. -/

/-- Resolved target of a symlink: a regular file (inode and content) or
a directory (inode). -/
inductive DstTarget : Type
  | tfile (id : Nat) (content : Chars)
  | tdir (id : Nat)
deriving DecidableEq

/-- Observable state of the destination path. -/
inductive DstState : Type
  | absent
  | file (id : Nat) (content : Chars)
  | dir (id : Nat)
  | symlink (target : Option DstTarget)
deriving DecidableEq

/-- `os.path.islink`. -/
def islink : DstState → Bool
  | .symlink _ => true
  | _ => false

/-- `os.path.lexists`: link-aware existence (true for broken links). -/
def lexists : DstState → Bool
  | .absent => false
  | _ => true

/-- `os.path.exists`: follows links, false for broken links. -/
def pexists : DstState → Bool
  | .absent => false
  | .file _ _ => true
  | .dir _ => true
  | .symlink none => false
  | .symlink (some _) => true

/-- `os.path.isdir`: follows links. -/
def isdirQ : DstState → Bool
  | .dir _ => true
  | .symlink (some (.tdir _)) => true
  | _ => false

/-- Inode identity of the object the path resolves to, `none` if the
path does not resolve. -/
def resolvedId : DstState → Option Nat
  | .absent => none
  | .file i _ => some i
  | .dir i => some i
  | .symlink none => none
  | .symlink (some (.tfile i _)) => some i
  | .symlink (some (.tdir i)) => some i

/-- pot.py lines 74-76: `real_dir(path)` is
`not os.path.islink(path) and os.path.isdir(path)`. -/
def real_dir (d : DstState) : Bool := !islink d && isdirQ d

/-- pot.py lines 84-86: `broken_link(path)` is
`os.path.islink(path) and not os.path.exists(path)`. -/
def broken_link (d : DstState) : Bool := islink d && !pexists d

/-- pot.py lines 89-91: `same_file_symlink(dst, src)` is
`os.path.islink(dst) and os.path.exists(dst) and os.path.samefile(src, dst)`,
where `samefile` compares resolved inode identity (`src` is known to
exist at this point, with inode `srcId`). -/
def same_file_symlink (d : DstState) (srcId : Nat) : Bool :=
  islink d && pexists d && (resolvedId d == some srcId)

/-- `open(dst, 'r+')`: succeeds with the current text exactly when the
destination resolves to an existing regular file; raises (modelled as
`none`) on a missing file, a broken link, or a directory. -/
def openRW : DstState → Option Chars
  | .file _ c => some c
  | .symlink (some (.tfile _ c)) => some c
  | _ => none

/-- Appending text to the opened file: the content grows at the end
(the file object is positioned at the end after `read()`). -/
def writeAppend (d : DstState) (x : Chars) : DstState :=
  match d with
  | .file i c => .file i (c ++ x)
  | .symlink (some (.tfile i c)) => .symlink (some (.tfile i (c ++ x)))
  | other => other

/-- Exceptions the embedded fragment can raise. -/
inductive PyErr : Type
  | openFailed      -- IOError from `open(dst, 'r+')` on a non-file destination
  | notADirectory   -- error from `shutil.copytree` when src is not a directory
deriving DecidableEq

/-- pot.py lines 269-281: the `include` action.  Open the destination
for read/append; if the inclusion line is already found by the
MULTILINE search, leave the file unchanged, otherwise append the line
followed by a newline. -/
def includeStep (src : Chars) (d : DstState) : Except PyErr DstState :=
  match openRW d with
  | none => .error .openFailed
  | some c =>
    let line := inclusionLine src
    if searchMultiline line c then .ok d
    else .ok (writeAppend d (line ++ ['\n']))

/-! ## Removal phase (pot.py lines 251-262)

For the `symlink` and `copy` actions, when something exists at the
destination (link-aware test), the object is removed when
`force or broken_link(dst) or same_file_symlink(dst, src)`; a real
directory is removed with `shutil.rmtree`, everything else with
`os.remove`.  Otherwise a conflict is reported and the entry skipped. -/

/-- Which removal primitive pot.py lines 256-259 choose. -/
inductive RemoveOp : Type
  | rmtree
  | removeSingle
deriving DecidableEq

/-- Outcome of the removal phase. -/
inductive RemovalOutcome : Type
  | noExisting
  | removed (op : RemoveOp)
  | conflict
deriving DecidableEq

/-- pot.py line 252: `force or broken_link(dst) or same_file_symlink(dst, src)`. -/
def removalEligible (force : Bool) (d : DstState) (srcId : Nat) : Bool :=
  force || broken_link d || same_file_symlink d srcId

/-- pot.py lines 251-262: the removal phase, returning the destination
state after the phase together with what happened. -/
def removalStep (force : Bool) (d : DstState) (srcId : Nat) :
    DstState × RemovalOutcome :=
  if lexists d then
    if removalEligible force d srcId then
      (.absent, .removed (if real_dir d then .rmtree else .removeSingle))
    else (d, .conflict)
  else (d, .noExisting)

/-! ## Source trees and `shutil.copytree` (pot.py lines 266-268)

The `copy` action calls `shutil.copytree(src, dst)` unconditionally.
`copytree` lists the source directory and copies children recursively;
on a non-directory source the initial directory listing raises. -/

mutual
/-- A source object in the repository storage: a plain file with text
content, or a directory of named children. -/
inductive FSTree : Type
  | file (content : Chars)
  | dir (children : FSForest)

/-- Children of a directory. -/
inductive FSForest : Type
  | nil
  | cons (name : String) (t : FSTree) (rest : FSForest)
end

mutual
/-- Recursive duplication of a single object, as `copytree` performs on
each directory entry (directories recurse, files are copied). -/
def copyAny : FSTree → FSTree
  | .file c => .file c
  | .dir cs => .dir (copyForest cs)

/-- Recursive duplication of all children. -/
def copyForest : FSForest → FSForest
  | .nil => .nil
  | .cons n t rest => .cons n (copyAny t) (copyForest rest)
end

/-- `shutil.copytree(src, dst)`: a full recursive tree copy when `src`
is a directory; raises when `src` is not a directory (the directory
listing of a plain file fails). -/
def copytree : FSTree → Except PyErr FSTree
  | .file _ => .error .notADirectory
  | .dir cs => .ok (.dir (copyForest cs))

/-! ## Per-entry installation and the install loop (pot.py lines 229-281)

A `Situation` gathers what the filesystem and the manifest present for
one requested name: whether the name is in the manifest, the entry's
action, whether the source exists, the source's inode, absolute path
and content tree, and the destination state.  `processEntry` mirrors
the body of the `for name in names` loop.

The mutating steps are wrapped in `report_action` (pot.py lines
118-127), which catches an exception, logs it, and re-raises it unless
`suppress` is set; `install` never sets `suppress`, so a raised
exception propagates out of the loop. -/

/-- The three placement actions. -/
inductive Action : Type
  | symlink
  | copy
  | include
deriving DecidableEq

/-- Inputs the loop body observes for one requested name. -/
structure Situation : Type where
  inManifest : Bool
  action : Action
  srcExists : Bool
  srcId : Nat
  srcPath : Chars
  srcTree : FSTree
  dst : DstState

/-- What a successful placement produced. -/
inductive Placed : Type
  | linked (srcId : Nat)
  | copied (t : FSTree)
  | included (newDst : DstState)

/-- Result of processing one requested name. -/
inductive EntryResult : Type
  | noSuchName
  | missingSource
  | conflict
  | done (p : Placed)
  | raised (e : PyErr)

/-- pot.py lines 238-281: the body of the install loop for one name.
`noSuchName`, `missingSource` and `conflict` correspond to the three
`continue` paths; `raised` is an exception re-raised by
`report_action`. -/
def processEntry (force : Bool) (s : Situation) : EntryResult :=
  if !s.inManifest then .noSuchName
  else if !s.srcExists then .missingSource
  else
    match s.action with
    | .symlink =>
      match removalStep force s.dst s.srcId with
      | (_, .conflict) => .conflict
      | _ => .done (.linked s.srcId)
    | .copy =>
      match removalStep force s.dst s.srcId with
      | (_, .conflict) => .conflict
      | _ =>
        match copytree s.srcTree with
        | .ok t => .done (.copied t)
        | .error e => .raised e
    | .include =>
      match includeStep s.srcPath s.dst with
      | .ok d => .done (.included d)
      | .error e => .raised e

/-- Did this entry raise? -/
def isRaised : EntryResult → Bool
  | .raised _ => true
  | _ => false

/-- pot.py lines 238-281: the install loop over the requested names.
An entry whose processing raises aborts the loop (the exception
propagates out of `install`); every other result lets the loop
continue with the next name. -/
def installRun (force : Bool) : List Situation → List EntryResult
  | [] => []
  | s :: rest =>
    let r := processEntry force s
    if isRaised r then [r] else r :: installRun force rest

/-! ## Manifest model and serialization (pot.py lines 130-198)

`DotFile.__init__(name, target=None, action='symlink')` defaults the
target to `os.path.join('~', name)`.  `to_yaml` writes the fields
`name`, `target`, `action` of every dotfile in order under the single
top-level key `dotfiles`; `from_yaml` reads the sequence back and
rebuilds each `DotFile` by keyword arguments, so absent keys fall back
to the constructor defaults.  The serialized document is embedded at
the structured level as the list of per-entry field records. -/

/-- One tracked dotfile (pot.py lines 130-165). -/
structure DotFile : Type where
  name : String
  target : String
  action : String
deriving DecidableEq

/-- `os.path.join('~', name)`: the join returns `name` unchanged when it
is absolute, otherwise prefixes `~/`. -/
def joinHomeTarget (name : String) : String :=
  if name.startsWith "/" then name else "~/" ++ name

/-- The `DotFile` constructor with its keyword defaults
(pot.py lines 138-141). -/
def mkDotFile (name : String) (target : Option String) (action : Option String) :
    DotFile :=
  { name := name
    target := match target with
              | none => joinHomeTarget name
              | some t => t
    action := action.getD "symlink" }

/-- Content of `config.yaml` (pot.py lines 168-198). -/
structure Config : Type where
  dotfiles : List DotFile

/-- One serialized entry: the `name`, `target`, `action` fields, each
optional in the document (the serializer always writes all three). -/
structure DocEntry : Type where
  name : String
  target : Option String
  action : Option String
deriving DecidableEq

/-- `Config.to_yaml` at the structured-document level (pot.py lines
143-149 and 182-194): every dotfile contributes its three fields. -/
def configToDoc (c : Config) : List DocEntry :=
  c.dotfiles.map (fun df => ⟨df.name, some df.target, some df.action⟩)

/-- `Config.from_yaml` at the structured-document level (pot.py lines
187-191): rebuild each `DotFile` from the entry's keyword arguments. -/
def configFromDoc (doc : List DocEntry) : Config :=
  ⟨doc.map (fun e => mkDotFile e.name e.target e.action)⟩

/-- `Config.__eq__` (pot.py lines 196-198): set-equality over dotfiles,
ignoring order. -/
def configEq (a b : Config) : Prop :=
  ∀ df : DotFile, df ∈ a.dotfiles ↔ df ∈ b.dotfiles

/-! ## The scoped change-directory helper (pot.py lines 106-115)

`cd(path)` saves `os.getcwd()`, changes into `path` inside a
`try`, and in the `finally` block changes back.  Computations are
embedded as functions from the current working directory (an abstract
directory identity) to the final working directory and a normal or
exceptional result: exceptions do not roll the directory back by
themselves. -/

/-- Failure of `os.chdir`. -/
inductive CdErr : Type
  | chdirFailed
deriving DecidableEq

/-- A computation over the process working directory. -/
def CompM (α : Type) : Type := Nat → Nat × Except CdErr α

/-- `os.getcwd()`. -/
def getcwdC : CompM Nat := fun s => (s, .ok s)

/-- `os.chdir(p)`: moves to `p` when `p` is a valid directory, otherwise
raises and leaves the working directory unchanged. -/
def chdirC (valid : Nat → Bool) (p : Nat) : CompM Unit :=
  fun s => if valid p then (p, .ok ()) else (s, .error .chdirFailed)

/-- Sequencing: an exception skips the continuation. -/
def bindC {α β : Type} (m : CompM α) (f : α → CompM β) : CompM β := fun s =>
  match m s with
  | (s', .ok a) => f a s'
  | (s', .error e) => (s', .error e)

/-- `try body finally cleanup`: the cleanup always runs on the body's
final state; an exception of the cleanup replaces the body's result,
otherwise the body's result (normal or exceptional) is kept. -/
def tryFinallyC {α : Type} (body : CompM α) (cleanup : CompM Unit) : CompM α :=
  fun s =>
    let p := body s
    let q := cleanup p.1
    (q.1, match q.2 with
          | .ok _ => p.2
          | .error e => .error e)

/-- pot.py lines 106-115: `cd(path)` around a body. -/
def cd {α : Type} (valid : Nat → Bool) (path : Nat) (body : CompM α) : CompM α :=
  bindC getcwdC (fun old =>
    tryFinallyC (bindC (chdirC valid path) (fun _ => body)) (chdirC valid old))

/-! ## Top-level behaviour (pot.py lines 229-232 and 329-333)

`install` returns normally after only logging an error when
`config.yaml` is missing; `main` wraps the command in `try/except`,
logging any escaped exception and exiting with status 1, and exits
with status 0 on a normal return. -/

/-- pot.py lines 229-232: the guard at the top of `install`.  A missing
manifest logs an error and returns normally; otherwise the rest of
`install` runs. -/
def installMissingManifestGuard (manifestPresent : Bool)
    (rest : Except PyErr Unit) : Except PyErr Unit :=
  if manifestPresent then rest else .ok ()

/-- pot.py lines 329-333: the process exit status produced by `main`
for a command outcome. -/
def exitStatus (run : Except PyErr Unit) : Nat :=
  match run with
  | .ok _ => 0
  | .error _ => 1

/-! ## Lemmas about the MULTILINE search -/

theorem leadsWith_append (X r : Chars) : leadsWith X (X ++ r) = true := by
  induction X with
  | nil => rfl
  | cons a as ih => simp [leadsWith, ih]

theorem matchAt_of_here (X l : Chars) (h1 : leadsWith X l = true)
    (h2 : wsOnlyToEOL (l.drop X.length) = true) : matchAt X l = true := by
  cases l with
  | nil =>
    cases X with
    | nil => rfl
    | cons a as => simp [leadsWith] at h1
  | cons c rest => simp [matchAt, h1, h2]

theorem matchAt_line_self (X r : Chars) : matchAt X (X ++ '\n' :: r) = true := by
  apply matchAt_of_here
  · exact leadsWith_append X ('\n' :: r)
  · rw [List.drop_left]
    rfl

theorem searchAux_newline (X a b : Chars) (h : matchAt X b = true) :
    searchAux X (a ++ '\n' :: b) = true := by
  induction a with
  | nil => simp [searchAux, h]
  | cons c cs ih => simp [searchAux, ih]

theorem searchMultiline_appended (X c : Chars)
    (hc : c = [] ∨ ∃ c0, c = c0 ++ ['\n']) :
    searchMultiline X (c ++ (X ++ ['\n'])) = true := by
  rcases hc with rfl | ⟨c0, rfl⟩
  · rw [List.nil_append]
    unfold searchMultiline
    rw [matchAt_line_self X []]
    simp
  · unfold searchMultiline
    have hshape : (c0 ++ ['\n']) ++ (X ++ ['\n']) = c0 ++ '\n' :: (X ++ ['\n']) := by
      simp
    rw [hshape, searchAux_newline X c0 (X ++ ['\n']) (matchAt_line_self X [])]
    simp

theorem openRW_writeAppend (d : DstState) (c x : Chars) (h : openRW d = some c) :
    openRW (writeAppend d x) = some (c ++ x) := by
  cases d with
  | absent => simp [openRW] at h
  | file i c0 =>
    simp [openRW] at h
    subst h
    rfl
  | dir i => simp [openRW] at h
  | symlink t =>
    match t with
    | none => simp [openRW] at h
    | some (.tdir i) => simp [openRW] at h
    | some (.tfile i c0) =>
      simp [openRW] at h
      subst h
      rfl

/-- C1 (corrected).  Running the `include` action twice leaves the file
content unchanged after the second run, provided the destination file's
prior content is empty or ends with a newline; the appended inclusion
line then forms a whole line and the MULTILINE search finds it on the
second run. -/
theorem include_idempotent_on_newline_terminated (src : Chars) (d : DstState)
    (c : Chars) (hopen : openRW d = some c)
    (hc : c = [] ∨ ∃ c0, c = c0 ++ ['\n']) :
    (includeStep src d).bind (includeStep src) = includeStep src d := by
  cases hsearch : searchMultiline (inclusionLine src) c with
  | true =>
    have h1 : includeStep src d = .ok d := by
      unfold includeStep
      rw [hopen]
      simp [hsearch]
    rw [h1]
    show includeStep src d = Except.ok d
    exact h1
  | false =>
    have h1 : includeStep src d
        = .ok (writeAppend d (inclusionLine src ++ ['\n'])) := by
      unfold includeStep
      rw [hopen]
      simp [hsearch]
    rw [h1]
    show includeStep src (writeAppend d (inclusionLine src ++ ['\n']))
      = Except.ok (writeAppend d (inclusionLine src ++ ['\n']))
    have hopen2 : openRW (writeAppend d (inclusionLine src ++ ['\n']))
        = some (c ++ (inclusionLine src ++ ['\n'])) :=
      openRW_writeAppend d c (inclusionLine src ++ ['\n']) hopen
    unfold includeStep
    rw [hopen2]
    simp [searchMultiline_appended (inclusionLine src) c hc]

/-- C1 counterexample.  On a destination file whose content `"a"` does
not end with a newline, the first run glues the inclusion line onto the
unterminated last line, the second run does not find it as a whole line
and appends again: two runs differ from one run. -/
theorem include_not_idempotent_counterexample :
    (includeStep ['/', 's'] (DstState.file 0 ['a'])).bind (includeStep ['/', 's'])
      ≠ includeStep ['/', 's'] (DstState.file 0 ['a']) := by
  decide

/-- Witness for `include_idempotent_on_newline_terminated` at the
newline-terminated content `"a\n"`. -/
theorem include_idempotent_witness :
    openRW (DstState.file 0 ['a', '\n']) = some ['a', '\n'] ∧
    (includeStep ['/', 's'] (DstState.file 0 ['a', '\n'])).bind (includeStep ['/', 's'])
      = includeStep ['/', 's'] (DstState.file 0 ['a', '\n']) :=
  ⟨rfl, include_idempotent_on_newline_terminated ['/', 's'] (DstState.file 0 ['a', '\n'])
    ['a', '\n'] rfl (Or.inr ⟨['a'], rfl⟩)⟩

/-! ## Removal-phase theorems -/

/-- C2.  When something exists at the destination (link-aware test),
the removal phase removes it exactly when the force flag is set, or the
object is a broken symlink, or it is a symlink resolving to the same
file identity as the source; otherwise the phase reports a conflict and
leaves the object untouched. -/
theorem removal_eligibility_iff (force : Bool) (srcId : Nat) (d : DstState)
    (h : lexists d = true) :
    ((∃ op, (removalStep force d srcId).2 = RemovalOutcome.removed op) ↔
      (force = true ∨ broken_link d = true ∨ same_file_symlink d srcId = true)) ∧
    (removalEligible force d srcId = false →
      removalStep force d srcId = (d, RemovalOutcome.conflict)) := by
  constructor
  · cases he : removalEligible force d srcId with
    | true =>
      constructor
      · intro _
        have hd := he
        simp only [removalEligible, Bool.or_eq_true] at hd
        tauto
      · intro _
        refine ⟨if real_dir d then .rmtree else .removeSingle, ?_⟩
        simp [removalStep, h, he]
    | false =>
      constructor
      · rintro ⟨op, hop⟩
        simp [removalStep, h, he] at hop
      · intro hdisj
        simp only [removalEligible, Bool.or_eq_true] at he
        exfalso
        rcases hdisj with hf | hb | hs
        · exact (by simp [hf] at he)
        · exact (by simp [hb] at he)
        · exact (by simp [hs] at he)
  · intro he
    simp [removalStep, h, he]

/-- Witness for `removal_eligibility_iff` at a broken symlink with the
force flag unset. -/
theorem removal_eligibility_witness :
    lexists (DstState.symlink none) = true ∧
    (((∃ op, (removalStep false (DstState.symlink none) 0).2
          = RemovalOutcome.removed op) ↔
        (false = true ∨ broken_link (DstState.symlink none) = true ∨
          same_file_symlink (DstState.symlink none) 0 = true)) ∧
      (removalEligible false (DstState.symlink none) 0 = false →
        removalStep false (DstState.symlink none) 0
          = (DstState.symlink none, RemovalOutcome.conflict))) :=
  ⟨rfl, removal_eligibility_iff false 0 (DstState.symlink none) rfl⟩

/-- C7.  An eligible destination object is removed with the recursive
directory removal exactly when it is a real directory, with the
single-object removal otherwise; in particular a symlink (for instance
one pointing at a directory) is never removed recursively. -/
theorem removal_op_rmtree_iff_real_dir (force : Bool) (srcId : Nat) (d : DstState)
    (h1 : lexists d = true) (h2 : removalEligible force d srcId = true) :
    (removalStep force d srcId).2
      = RemovalOutcome.removed
          (if real_dir d then RemoveOp.rmtree else RemoveOp.removeSingle) ∧
    (islink d = true →
      (removalStep force d srcId).2 = RemovalOutcome.removed RemoveOp.removeSingle) := by
  constructor
  · simp [removalStep, h1, h2]
  · intro hl
    have hrd : real_dir d = false := by simp [real_dir, hl]
    simp [removalStep, h1, h2, hrd]

/-- Witness for `removal_op_rmtree_iff_real_dir` at a real directory
under the force flag. -/
theorem removal_op_witness :
    lexists (DstState.dir 5) = true ∧
    removalEligible true (DstState.dir 5) 0 = true ∧
    ((removalStep true (DstState.dir 5) 0).2
        = RemovalOutcome.removed
            (if real_dir (DstState.dir 5) then RemoveOp.rmtree else RemoveOp.removeSingle) ∧
      (islink (DstState.dir 5) = true →
        (removalStep true (DstState.dir 5) 0).2
          = RemovalOutcome.removed RemoveOp.removeSingle)) :=
  ⟨rfl, rfl, removal_op_rmtree_iff_real_dir true 0 (DstState.dir 5) rfl rfl⟩

/-- C10.  `broken_link` demands that the destination not resolve while
`same_file_symlink` demands that it resolve, so the two
removal-eligibility disjuncts are never both true. -/
theorem broken_link_samefile_exclusive :
    ∀ (srcId : Nat) (d : DstState),
      (broken_link d && same_file_symlink d srcId) = false := by
  intro srcId d
  cases d with
  | absent => rfl
  | file i c => rfl
  | dir i => rfl
  | symlink t =>
    cases t with
    | none => rfl
    | some tg =>
      cases tg with
      | tfile i c => rfl
      | tdir i => rfl

/-! ## Copy lemmas -/

mutual
theorem copyAny_id : ∀ t : FSTree, copyAny t = t
  | .file c => rfl
  | .dir cs => by
      show FSTree.dir (copyForest cs) = FSTree.dir cs
      rw [copyForest_id cs]

theorem copyForest_id : ∀ cs : FSForest, copyForest cs = cs
  | .nil => rfl
  | .cons n t rest => by
      show FSForest.cons n (copyAny t) (copyForest rest) = FSForest.cons n t rest
      rw [copyAny_id t, copyForest_id rest]
end

/-! ## Concrete situations used as inputs -/

/-- An `include` entry whose destination is absent: `open(dst, 'r+')`
raises. -/
def sitIncludeMissing : Situation :=
  { inManifest := true, action := .include, srcExists := true, srcId := 0,
    srcPath := ['/', 's'], srcTree := .file [], dst := .absent }

/-- A `symlink` entry with a clear destination: placed without issue. -/
def sitSymlinkClear : Situation :=
  { inManifest := true, action := .symlink, srcExists := true, srcId := 0,
    srcPath := ['/', 's'], srcTree := .file [], dst := .absent }

/-- A `symlink` entry facing an existing plain file without force: a
destination conflict, skipped. -/
def sitConflictFile : Situation :=
  { inManifest := true, action := .symlink, srcExists := true, srcId := 0,
    srcPath := ['/', 's'], srcTree := .file [], dst := .file 1 ['x'] }

/-- A `copy` entry whose source is a plain file. -/
def sitCopyFileSrc : Situation :=
  { inManifest := true, action := .copy, srcExists := true, srcId := 0,
    srcPath := ['/', 's'], srcTree := .file ['1'], dst := .absent }

/-- A `copy` entry whose source is a directory. -/
def sitCopyDirSrc : Situation :=
  { inManifest := true, action := .copy, srcExists := true, srcId := 0,
    srcPath := ['/', 's'], srcTree := .dir .nil, dst := .absent }

/-! ## Install-loop theorems -/

/-- C3 (amended).  `report_action` is used by `install` without
`suppress`, so an exception raised during an entry's removal or
placement phase is reported and re-raised, aborting the remainder of
the batch; only the missing-name, missing-source and
destination-conflict outcomes are entry-scoped skips after which the
loop continues. -/
theorem install_aborts_on_raise (force : Bool) (pre : List Situation)
    (s : Situation) (post : List Situation) (err : PyErr)
    (hpre : ∀ t ∈ pre, isRaised (processEntry force t) = false)
    (hs : processEntry force s = .raised err) :
    installRun force (pre ++ s :: post)
      = pre.map (processEntry force) ++ [EntryResult.raised err] := by
  induction pre with
  | nil =>
    simp only [List.nil_append, List.map_nil]
    simp [installRun, hs, isRaised]
  | cons t ts ih =>
    have ht : isRaised (processEntry force t) = false := hpre t (by simp)
    have hts : ∀ u ∈ ts, isRaised (processEntry force u) = false :=
      fun u hu => hpre u (by simp [hu])
    simp only [List.cons_append, List.map_cons]
    simp [installRun, ht, ih hts]

/-- C3 counterexample.  A two-entry batch whose first entry raises
(an `include` on a missing destination) produces only that exception:
the second entry is never processed, so the exception aborts the
remainder of the batch instead of being skipped. -/
theorem install_no_continue_counterexample :
    installRun false [sitIncludeMissing, sitSymlinkClear]
      = [EntryResult.raised PyErr.openFailed] := rfl

/-- Witness for `install_aborts_on_raise`: a conflict entry is skipped
and the loop continues, then the raising entry aborts, dropping the
final entry. -/
theorem install_aborts_on_raise_witness :
    (∀ t ∈ [sitConflictFile], isRaised (processEntry false t) = false) ∧
    processEntry false sitIncludeMissing = EntryResult.raised PyErr.openFailed ∧
    installRun false ([sitConflictFile] ++ sitIncludeMissing :: [sitSymlinkClear])
      = [sitConflictFile].map (processEntry false) ++ [EntryResult.raised PyErr.openFailed] :=
  ⟨fun t ht => by rw [List.mem_singleton.mp ht]; rfl, rfl,
   install_aborts_on_raise false [sitConflictFile] sitIncludeMissing [sitSymlinkClear]
     PyErr.openFailed (fun t ht => by rw [List.mem_singleton.mp ht]; rfl) rfl⟩

/-- C4 (amended).  The `include` action opens the destination with mode
`'r+'`, which requires an existing file: on an absent destination the
open raises (and `report_action` re-raises); no file is created. -/
theorem include_missing_dst_raises (force : Bool) (s : Situation)
    (h1 : s.inManifest = true) (h2 : s.srcExists = true)
    (h3 : s.action = .include) (h4 : s.dst = .absent) :
    processEntry force s = EntryResult.raised PyErr.openFailed := by
  simp [processEntry, h1, h2, h3, h4, includeStep, openRW]

/-- C4 counterexample.  Installing an `include` entry against a missing
destination raises instead of creating the file with the inclusion
line. -/
theorem include_missing_dst_counterexample :
    processEntry false sitIncludeMissing = EntryResult.raised PyErr.openFailed := rfl

/-- Witness for `include_missing_dst_raises`. -/
theorem include_missing_dst_raises_witness :
    sitIncludeMissing.inManifest = true ∧ sitIncludeMissing.srcExists = true ∧
    sitIncludeMissing.action = Action.include ∧
    sitIncludeMissing.dst = DstState.absent ∧
    processEntry true sitIncludeMissing = EntryResult.raised PyErr.openFailed :=
  ⟨rfl, rfl, rfl, rfl, include_missing_dst_raises true sitIncludeMissing rfl rfl rfl rfl⟩

/-- C6 (amended).  The `copy` action calls `shutil.copytree`
unconditionally: a directory source is duplicated as a full recursive
tree copy, while a plain-file source raises instead of being copied as
a file. -/
theorem copy_action_is_copytree (force : Bool) (s : Situation)
    (h1 : s.inManifest = true) (h2 : s.srcExists = true)
    (h3 : s.action = .copy) (h4 : s.dst = .absent) :
    processEntry force s
      = (match s.srcTree with
         | .file _ => EntryResult.raised PyErr.notADirectory
         | .dir cs => EntryResult.done (.copied (.dir cs))) := by
  cases ht : s.srcTree with
  | file c =>
    simp [processEntry, h1, h2, h3, h4, removalStep, lexists, copytree, ht]
  | dir cs =>
    simp [processEntry, h1, h2, h3, h4, removalStep, lexists, copytree, ht,
      copyForest_id]

/-- C6 counterexample.  A `copy` entry with a plain-file source and a
clear destination raises instead of performing a file copy. -/
theorem copy_file_source_counterexample :
    processEntry false sitCopyFileSrc = EntryResult.raised PyErr.notADirectory := rfl

/-- Witness for `copy_action_is_copytree` at a directory source. -/
theorem copy_action_is_copytree_witness :
    sitCopyDirSrc.inManifest = true ∧ sitCopyDirSrc.srcExists = true ∧
    sitCopyDirSrc.action = Action.copy ∧ sitCopyDirSrc.dst = DstState.absent ∧
    processEntry false sitCopyDirSrc
      = (match sitCopyDirSrc.srcTree with
         | .file _ => EntryResult.raised PyErr.notADirectory
         | .dir cs => EntryResult.done (.copied (.dir cs))) :=
  ⟨rfl, rfl, rfl, rfl, copy_action_is_copytree false sitCopyDirSrc rfl rfl rfl rfl⟩

/-! ## Manifest round trip -/

theorem config_roundtrip_list (l : List DotFile) :
    (configFromDoc (configToDoc ⟨l⟩)).dotfiles = l := by
  simp only [configToDoc, configFromDoc, List.map_map]
  induction l with
  | nil => rfl
  | cons df rest ih =>
    rw [List.map_cons, ih]
    rfl

/-- C5.  Serializing a manifest to the structured document and loading
the document back yields a manifest that is set-equal to the original
(`Config.__eq__`: equality over dotfiles ignoring order); in fact the
reloaded dotfile list is identical. -/
theorem config_serialization_roundtrip (c : Config) :
    configEq (configFromDoc (configToDoc c)) c := by
  intro df
  cases c with
  | mk l => rw [config_roundtrip_list l]

/-! ## Exit-status theorems -/

/-- C8 counterexample.  With the manifest file missing, `install` logs
an error and returns normally, so `main` raises nothing and the process
exits with status zero, not non-zero. -/
theorem missing_manifest_exit_counterexample :
    exitStatus (installMissingManifestGuard false (Except.ok ())) = 0 := rfl

/-- C8 (amended).  A missing manifest file at install time is reported
and the run returns normally, giving exit status zero; the exit status
is non-zero exactly when an exception escapes the command and reaches
the handler in `main`. -/
theorem missing_manifest_exit_status :
    (∀ rest : Except PyErr Unit,
      exitStatus (installMissingManifestGuard false rest) = 0) ∧
    (∀ e : PyErr,
      exitStatus (installMissingManifestGuard true (Except.error e)) = 1) := by
  constructor
  · intro rest
    rfl
  · intro e
    rfl

/-! ## Working-directory restoration -/

/-- C9.  The scoped change-directory helper restores the working
directory on every exit path: whatever the body does to the working
directory and whether it returns normally or raises, after `cd` exits
the working directory equals what `os.getcwd()` returned on entry
(provided that saved directory can still be entered by the restoring
`os.chdir`). -/
theorem cd_restores_cwd {α : Type} (valid : Nat → Bool) (path : Nat)
    (body : CompM α) (s : Nat) (h : valid s = true) :
    (cd valid path body s).1 = s := by
  simp [cd, bindC, getcwdC, tryFinallyC, chdirC, h]

/-- Witness for `cd_restores_cwd`: a body that both moves the working
directory and raises; `cd` still restores the original directory. -/
theorem cd_restores_cwd_witness :
    (fun _ : Nat => true) 0 = true ∧
    (cd (fun _ => true) 1
      (fun _ => ((5, Except.error CdErr.chdirFailed) : Nat × Except CdErr Unit)) 0).1 = 0 :=
  ⟨rfl, cd_restores_cwd (fun _ => true) 1
    (fun _ => ((5, Except.error CdErr.chdirFailed) : Nat × Except CdErr Unit)) 0 rfl⟩

end Pot
